import Mathlib

/-!
Verification of the MindMate assessment orchestration core.

The definitions below are a shallow embedding of the repository code:
the session data model, the optimistic-versioning session update, the
two-tier session lookup, the ownership guard, the module-completion
handler of `process_message`, the DA/TPA prerequisite checks, the
frontend assessment API `deleteSession` wrapper, and the questionnaire
completion flag stored in browser local storage.  Dictionaries are
embedded as association lists over `String` keys; raised exceptions are
embedded as `Except` error values; database writes are embedded as
explicit state passing with an outcome parameter for the commit/fail
behaviour of the underlying store.
-/

set_option autoImplicit false

namespace MindMate

/-- A module result payload: an opaque dictionary of string fields. -/
abbrev Payload := List (String × String)

/-- Python truthiness of an optional payload: present and non-empty.
This is the meaning of `if module_results:` and of
`bool(session_state.module_results.get(name))` in the source. -/
def truthy : Option Payload → Bool
  | some p => !p.isEmpty
  | none => false

/-- Replace the binding of `k` in an association list, or append it.
This embeds assignment `d[k] = v` on a Python dict / SQL row update. -/
def setAssoc {α : Type} : List (String × α) → String → α → List (String × α)
  | [], k, v => [(k, v)]
  | (k', v') :: t, k, v =>
      if k' = k then (k, v) :: t else (k', v') :: setAssoc t k v

/-- The session state record, from the `SessionState` dataclass of the
assessment system (`assessment_v2/types.py` as shown in the repository
fix plan): identity, owner, active module, ordered module history, a
module-name-to-result mapping, completion flag and the optimistic
locking version counter added in step 2.4. -/
structure SessionState where
  session_id : String
  patient_id : String
  current_module : String
  module_history : List String
  module_results : List (String × Payload)
  is_complete : Bool
  version : Nat
deriving Repr, DecidableEq

/-- The error taxonomy raised by the embedded operations. -/
inductive AssessmentError where
  | NotFoundError
  | AccessDeniedError
  | ConcurrentModificationError
deriving Repr, DecidableEq

/-- The durable session table, keyed by session identifier. -/
abbrev DbStore := List (String × SessionState)

/-- The in-memory session cache (`self.sessions`), keyed by session identifier. -/
abbrev Cache := List (String × SessionState)

/-- The optimistic-locking session update from step 2.4 of the fix plan
(`assessment_v2/database.py`): the durable row is looked up by session
identifier and by the version the caller read; when no such row exists a
`ConcurrentModificationError` is raised; otherwise the version is
incremented and the row is updated with the incremented state. -/
def update_session (db : DbStore) (session_state : SessionState) :
    Except AssessmentError (DbStore × SessionState) :=
  match db.lookup session_state.session_id with
  | some existing =>
      if existing.version = session_state.version then
        let updated := { session_state with version := session_state.version + 1 }
        .ok (setAssoc db session_state.session_id updated, updated)
      else
        .error .ConcurrentModificationError
  | none => .error .ConcurrentModificationError

/-- The moderator state relevant to session lookup: the in-memory cache
and the optional durable store handle (`hasattr(self, 'db') and self.db`). -/
structure Moderator where
  sessions : Cache
  db : Option DbStore
deriving Repr, DecidableEq

/-- Two-tier session lookup from step 2.1 of the fix plan
(`assessment_v2/moderator.py`): check the in-memory cache first; on a
miss fall back to the durable store when one is configured; on a
durable-store hit warm the cache before returning; otherwise return
nothing.  The returned moderator carries the possibly warmed cache. -/
def get_session_state (m : Moderator) (session_id : String) :
    Option SessionState × Moderator :=
  match m.sessions.lookup session_id with
  | some s => (some s, m)
  | none =>
      match m.db with
      | some db =>
          match db.lookup session_id with
          | some s => (some s, { m with sessions := setAssoc m.sessions session_id s })
          | none => (none, m)
      | none => (none, m)

/-- Session ownership validation from step 1.1 of the fix plan
(`assessment.py`).  The snippet shows the security fix explicitly: a
session without a patient identifier is denied.  The elided remainder is
modelled from the spec: compare the session owner with the caller
(`session.owner == subject_id`). -/
def validate_session_ownership (session_state : SessionState) (patient_id : String) : Bool :=
  if session_state.patient_id = "" then false
  else session_state.patient_id == patient_id

/-- The load-and-authorize guard of `process_message` from step 3.1 of
the fix plan: load the session without ever creating one, raise 404
(`NotFoundError`) when it is absent, then raise 403 (`AccessDeniedError`)
unless ownership validation passes. -/
def process_message_auth (m : Moderator) (user_id session_id : String) :
    Except AssessmentError (SessionState × Moderator) :=
  match get_session_state m session_id with
  | (none, _) => .error .NotFoundError
  | (some s, m') =>
      if validate_session_ownership s user_id then .ok (s, m')
      else .error .AccessDeniedError

/-- Outcome of `module.get_results(session_id)` in the completion
handler: the module may lack the attribute (`hasattr` is false), the
call may raise, or it returns a payload (possibly falsy/empty). -/
inductive GetResultsOutcome where
  | noAttr
  | raises
  | returns (r : Payload)
deriving Repr, DecidableEq

/-- Outcome of the durable write `self.db.store_module_results(...)`. -/
inductive DbWriteOutcome where
  | commits
  | fails
deriving Repr, DecidableEq

/-- The durable module-results table, rows keyed by session identifier
and module name. -/
abbrev ResultsStore := List (String × String × Payload)

def results_lookup (l : ResultsStore) (session_id module_name : String) : Option Payload :=
  match l with
  | [] => none
  | (s, m, p) :: t =>
      if s = session_id ∧ m = module_name then some p
      else results_lookup t session_id module_name

/-- Durable write of a module result row (step 2.3 of the fix plan). -/
def store_module_results (l : ResultsStore) (session_id module_name : String)
    (r : Payload) : ResultsStore :=
  (session_id, module_name, r) :: l

/-- Modelled from the spec: the body of `_mark_module_completed` is not
in the repository snapshot (only its call site is).  Per the data-model
invariant, `module_history` only ever grows by appending the module most
recently exited, so marking a module completed appends it to the
history. -/
def mark_module_completed (s : SessionState) (module_name : String) : SessionState :=
  { s with module_history := s.module_history ++ [module_name] }

/-- The module-completion handler of `process_message` from step 2.3 of
the fix plan (`assessment_v2/moderator.py`), entered when the active
module reports completion.  Inside a try block: when the module exposes
`get_results` and returns a truthy payload, the payload is staged into
the in-memory `session_state.module_results` and then, when a durable
store is configured, written durably; any exception is caught and an
error string is returned without marking the module completed.  When the
try block finishes without an exception, `_mark_module_completed`
appends the module to the history.  The returned triple is the durable
results table, the resulting session state, and the error string when
the turn failed. -/
def handle_module_completion (dbr : ResultsStore) (s : SessionState)
    (current_module_name : String) (gr : GetResultsOutcome)
    (hasDb : Bool) (dbw : DbWriteOutcome) :
    ResultsStore × SessionState × Option String :=
  match gr with
  | .raises => (dbr, s, some "Error saving module results. Please try again.")
  | .noAttr => (dbr, mark_module_completed s current_module_name, none)
  | .returns r =>
      if truthy (some r) then
        let staged := { s with module_results := setAssoc s.module_results current_module_name r }
        if hasDb then
          match dbw with
          | .commits =>
              (store_module_results dbr s.session_id current_module_name r,
               mark_module_completed staged current_module_name, none)
          | .fails => (dbr, staged, some "Error saving module results. Please try again.")
        else (dbr, mark_module_completed staged current_module_name, none)
      else (dbr, mark_module_completed s current_module_name, none)

/-- One module-completion event: which module completed and how its
result retrieval and durable write went. -/
structure CompletionEvent where
  module_name : String
  gr : GetResultsOutcome
  hasDb : Bool
  dbw : DbWriteOutcome
deriving Repr, DecidableEq

/-- Whether a completion event ends in a successful transition, i.e. the
completion handler returns no error string for it. -/
def event_succeeds (e : CompletionEvent) : Bool :=
  match e.gr with
  | .raises => false
  | .noAttr => true
  | .returns r =>
      if truthy (some r) then
        if e.hasDb then
          match e.dbw with
          | .commits => true
          | .fails => false
        else true
      else true

/-- Run a sequence of module-completion events through the completion
handler, threading the durable results table and the session state. -/
def run_completions (st : ResultsStore × SessionState) :
    List CompletionEvent → ResultsStore × SessionState
  | [] => st
  | e :: t =>
      let out := handle_module_completion st.1 st.2 e.module_name e.gr e.hasDb e.dbw
      run_completions (out.1, out.2.1) t

/-- The TPA prerequisite check from step 3.2 of the fix plan
(`assessment_v2/moderator.py`): the DA module must appear in the module
history and have a truthy entry in the module results. -/
def _should_run_tpa (s : SessionState) : Bool :=
  s.module_history.contains "da_diagnostic_analysis" &&
    truthy (s.module_results.lookup "da_diagnostic_analysis")

/-- The DA prerequisite loop from step 3.2 of the fix plan, abstracted
over the configured list of diagnostic modules
(`get_diagnostic_modules()`): every configured module must appear in the
module history, and its module-results entry must be truthy; otherwise
the check returns false.  This is the generic prerequisite gate
`can_enter(required_modules, session)`. -/
def can_enter (required : List String) (s : SessionState) : Bool :=
  match required with
  | [] => true
  | m :: rest =>
      if !(s.module_history.contains m) then false
      else if !(truthy (s.module_results.lookup m)) then false
      else can_enter rest s

def _should_run_da (diagnostic_modules : List String) (s : SessionState) : Bool :=
  can_enter diagnostic_modules s

/-- A structured interpretation of one free-text turn, the contract both
Response Processor paths return: the module it is scoped to, the
extracted intent, and the path that produced it (observable but outside
the contract). -/
structure Interpretation where
  module : String
  intent : String
  source : String
deriving Repr, DecidableEq

/-- Outcome of the call to the external text-understanding capability. -/
inductive NluOutcome where
  | success (interp : Interpretation)
  | timeout
  | httpError (status : Nat)
  | malformed (raw : String)
deriving Repr, DecidableEq

def NluOutcome.is_failure : NluOutcome → Bool
  | .success _ => false
  | .timeout => true
  | .httpError _ => true
  | .malformed _ => true

/-- Whether `kw` occurs as a substring of `text`, via `splitOn`. -/
def keyword_present (text kw : String) : Bool :=
  (text.splitOn kw).length > 1

/-- Modelled from the spec: the Response Processor code is not in the
repository snapshot.  The fallback path is deterministic rule-based
keyword extraction scoped to the active module, producing a result of
the same shape as the primary path. -/
def fallback_extract (module_name text : String) : Interpretation :=
  { module := module_name
    intent :=
      if keyword_present text "yes" then "affirmative"
      else if keyword_present text "no" then "negative"
      else "unclassified"
    source := "fallback" }

/-- Structural validity of an interpretation for the active module: it
is scoped to that module and carries a non-empty intent. -/
def structurally_valid (module_name : String) (i : Interpretation) : Bool :=
  (i.module == module_name) && !(i.intent.isEmpty)

/-- Modelled from the spec: the Response Processor entry point prefers
the external text-understanding capability and falls back to rule-based
extraction on timeout, non-success response or malformed output.  It is
total: every failure mode yields the fallback interpretation rather
than an exception. -/
def process_response (module_name text : String) (outcome : NluOutcome) : Interpretation :=
  match outcome with
  | .success i => i
  | .timeout => fallback_extract module_name text
  | .httpError _ => fallback_extract module_name text
  | .malformed _ => fallback_extract module_name text

/-- An error thrown by the frontend HTTP client: either an HTTP error
response carrying a status, or a network-level failure with no response. -/
inductive ApiError where
  | http (status : Nat) (detail : String)
  | network (message : String)
deriving Repr, DecidableEq

/-- The success-like object `deleteSession` fabricates for a 404. -/
structure DeleteNotFoundShim where
  success : Bool
  message : String
  session_id : String
deriving Repr, DecidableEq

/-- What `deleteSession` resolves to: the raw response data of the
delete endpoint, or the fabricated success-like object. -/
inductive DeleteOutcome where
  | data (d : Payload)
  | shim (r : DeleteNotFoundShim)
deriving Repr, DecidableEq

/-- The frontend `deleteSession` of `useAssessmentAPI.js`: a successful
post resolves with the response data; a 404 error is converted into a
success-like object instead of propagating; every other error is
re-thrown by `handleError`. -/
def deleteSession (sessionId : String) (resp : Except ApiError Payload) :
    Except ApiError DeleteOutcome :=
  match resp with
  | .ok d => .ok (.data d)
  | .error e =>
      match e with
      | .http status _ =>
          if status = 404 then
            .ok (.shim { success := true
                         message := "Session not found (already deleted)"
                         session_id := sessionId })
          else .error e
      | .network _ => .error e

/-- Browser local storage, embedded as an association list. -/
abbrev Storage := List (String × String)

def getItem (st : Storage) (k : String) : Option String := st.lookup k

def setItem (st : Storage) (k v : String) : Storage := setAssoc st k v

def removeItem (st : Storage) (k : String) : Storage :=
  st.filter (fun kv => kv.1 != k)

/-- From `useQuestionnaireCheck.js`: the flag reads as completed exactly
when the stored value is the string true (strict equality, so a missing
key reads as not completed). -/
def isQuestionnaireCompleted (st : Storage) : Bool :=
  getItem st "questionnaire_completed" == some "true"

def markQuestionnaireCompleted (st : Storage) : Storage :=
  setItem st "questionnaire_completed" "true"

def resetQuestionnaireStatus (st : Storage) : Storage :=
  removeItem st "questionnaire_completed"

/-! Concrete sample data used by the closed evaluation theorems. -/

def c1stored : SessionState :=
  { session_id := "s1", patient_id := "u1", current_module := "mood",
    module_history := ["intake"], module_results := [("intake", [("done", "1")])],
    is_complete := false, version := 3 }

def c1db : DbStore := [("s1", c1stored)]

def c1stale : SessionState := { c1stored with version := 9 }

def c2session : SessionState :=
  { session_id := "s2c", patient_id := "u2", current_module := "mood",
    module_history := ["intake"], module_results := [], is_complete := false, version := 5 }

def c3session : SessionState :=
  { session_id := "s3", patient_id := "", current_module := "intake",
    module_history := [], module_results := [], is_complete := false, version := 0 }

def c3moderator : Moderator := { sessions := [("s3", c3session)], db := none }

def c4incomplete : SessionState :=
  { session_id := "s4", patient_id := "u4", current_module := "da_diagnostic_analysis",
    module_history := ["intake", "da_diagnostic_analysis"], module_results := [],
    is_complete := false, version := 1 }

def c4complete : SessionState :=
  { c4incomplete with
    module_results := [("da_diagnostic_analysis", [("diagnosis", "gad")])] }

def c5moderator : Moderator := { sessions := [], db := some [] }

def c6cached : SessionState :=
  { session_id := "s6", patient_id := "u6", current_module := "mood",
    module_history := [], module_results := [], is_complete := false, version := 2 }

def c6staleCopy : SessionState := { c6cached with version := 7 }

def c6hit : Moderator := { sessions := [("s6", c6cached)], db := some [("s6", c6staleCopy)] }

def c6miss : Moderator := { sessions := [], db := some [("s6", c6cached)] }

/-! Helper lemmas about the association-list embedding of dictionaries. -/

theorem lookup_setAssoc_self {α : Type} (l : List (String × α)) (k : String) (v : α) :
    (setAssoc l k v).lookup k = some v := by
  induction l with
  | nil => simp [setAssoc, List.lookup]
  | cons hd t ih =>
      obtain ⟨k', v'⟩ := hd
      by_cases h : k' = k
      · subst h
        simp [setAssoc, List.lookup]
      · have h2 : (k == k') = false := by
          simp only [beq_eq_false_iff_ne]
          exact fun he => h he.symm
        simp [setAssoc, h, List.lookup, h2, ih]

theorem lookup_filter_ne {α : Type} (l : List (String × α)) (k : String) :
    (l.filter (fun kv => kv.1 != k)).lookup k = none := by
  induction l with
  | nil => simp [List.lookup]
  | cons hd t ih =>
      obtain ⟨k', v'⟩ := hd
      by_cases h : k' = k
      · subst h
        simp [List.filter, List.lookup, ih]
      · have h2 : (k == k') = false := by
          simp only [beq_eq_false_iff_ne]
          exact fun he => h he.symm
        have h3 : (k' != k) = true := by
          simp [bne, beq_eq_false_iff_ne, h]
        simp [List.filter, h3, List.lookup, h2, ih]

theorem validate_ownership_false (s : SessionState) (uid : String)
    (h : s.patient_id = "" ∨ s.patient_id ≠ uid) :
    validate_session_ownership s uid = false := by
  unfold validate_session_ownership
  rcases h with h | h
  · simp [h]
  · by_cases he : s.patient_id = ""
    · simp [he]
    · simp [he, beq_eq_false_iff_ne, h]

theorem can_enter_iff (required : List String) (s : SessionState) :
    can_enter required s = true ↔
      ∀ m ∈ required, m ∈ s.module_history ∧
        truthy (s.module_results.lookup m) = true := by
  induction required with
  | nil => simp [can_enter]
  | cons m rest ih =>
      by_cases h1 : m ∈ s.module_history
      · by_cases h2 : truthy (s.module_results.lookup m) = true
        · simp [can_enter, h1, h2, ih]
        · simp [can_enter, h1, h2]
      · simp [can_enter, h1]

theorem fallback_extract_valid (module_name text : String) :
    structurally_valid module_name (fallback_extract module_name text) = true := by
  unfold structurally_valid fallback_extract
  by_cases h1 : keyword_present text "yes"
  · simp [h1]
    decide
  · by_cases h2 : keyword_present text "no"
    · simp [h1, h2]
      decide
    · simp [h1, h2]
      decide

theorem handle_module_completion_history (dbr : ResultsStore) (s : SessionState)
    (e : CompletionEvent) :
    (handle_module_completion dbr s e.module_name e.gr e.hasDb e.dbw).2.1.module_history =
      if event_succeeds e then s.module_history ++ [e.module_name]
      else s.module_history := by
  obtain ⟨mn, gr, hasDb, dbw⟩ := e
  cases gr with
  | raises => simp [handle_module_completion, event_succeeds]
  | noAttr => simp [handle_module_completion, event_succeeds, mark_module_completed]
  | returns r =>
      by_cases hr : truthy (some r) = true
      · cases hasDb with
        | false =>
            simp [handle_module_completion, event_succeeds, hr, mark_module_completed]
        | true =>
            cases dbw with
            | commits =>
                simp [handle_module_completion, event_succeeds, hr, mark_module_completed]
            | fails => simp [handle_module_completion, event_succeeds, hr]
      · simp [handle_module_completion, event_succeeds, hr, mark_module_completed]

/-- C1: a successful persisted update increments the stored version by
exactly one; an update against a stale version fails with
`ConcurrentModificationError` and is not applied; two updates racing
from the same starting version, serialized by the compare-and-swap of
the store, see exactly one success (incrementing the version by one)
and one `ConcurrentModificationError`. -/
theorem C1_optimistic_versioning (db : DbStore) (sid : String)
    (stored s1 s2 s3 : SessionState)
    (hlk : db.lookup sid = some stored)
    (h1 : s1.session_id = sid) (h2 : s2.session_id = sid) (h3 : s3.session_id = sid)
    (hv1 : s1.version = stored.version) (hv2 : s2.version = stored.version)
    (hv3 : s3.version ≠ stored.version) :
    update_session db s3 = .error .ConcurrentModificationError ∧
    ∃ db' s1', update_session db s1 = .ok (db', s1') ∧
      s1'.version = stored.version + 1 ∧
      db'.lookup sid = some s1' ∧
      update_session db' s2 = .error .ConcurrentModificationError := by
  constructor
  · unfold update_session
    rw [h3, hlk]
    have hne : ¬ (stored.version = s3.version) := fun he => hv3 he.symm
    simp [hne]
  · refine ⟨setAssoc db sid { s1 with version := s1.version + 1 },
      { s1 with version := s1.version + 1 }, ?_, ?_, ?_, ?_⟩
    · unfold update_session
      rw [h1, hlk]
      simp [hv1]
    · simp [hv1]
    · exact lookup_setAssoc_self db sid _
    · unfold update_session
      rw [h2, lookup_setAssoc_self]
      have hne : ¬ (({ s1 with version := s1.version + 1 } : SessionState).version
          = s2.version) := by
        simp only [SessionState.mk.injEq]
        show ¬ (s1.version + 1 = s2.version)
        omega
      simp [hne]

/-- Closed instance of C1 on concrete data. -/
theorem C1_optimistic_versioning_witness :
    c1db.lookup "s1" = some c1stored ∧ c1stale.version ≠ c1stored.version ∧
    (update_session c1db c1stale = .error .ConcurrentModificationError ∧
     ∃ db' s1', update_session c1db c1stored = .ok (db', s1') ∧
       s1'.version = c1stored.version + 1 ∧
       db'.lookup "s1" = some s1' ∧
       update_session db' c1stored = .error .ConcurrentModificationError) :=
  ⟨rfl, by decide,
    C1_optimistic_versioning c1db "s1" c1stored c1stored c1stored c1stale
      rfl rfl rfl rfl rfl rfl (by decide)⟩

/-- C3: processing a turn against a session whose owner field is empty,
or whose owner differs from the caller, always fails with
`AccessDeniedError`; there is no path that grants access to an
owner-less session. -/
theorem C3_ownership_denied (m : Moderator) (uid sid : String) (s : SessionState)
    (hget : (get_session_state m sid).1 = some s)
    (hbad : s.patient_id = "" ∨ s.patient_id ≠ uid) :
    process_message_auth m uid sid = .error .AccessDeniedError := by
  have hv := validate_ownership_false s uid hbad
  have hp : get_session_state m sid = (some s, (get_session_state m sid).2) := by
    rw [← hget]
  unfold process_message_auth
  rw [hp]
  simp [hv]

/-- Closed instance of C3: an owner-less session is denied. -/
theorem C3_ownership_denied_witness :
    (get_session_state c3moderator "s3").1 = some c3session ∧
    c3session.patient_id = "" ∧
    process_message_auth c3moderator "u1" "s3" = .error .AccessDeniedError :=
  ⟨rfl, rfl,
    C3_ownership_denied c3moderator "u1" "s3" c3session rfl (Or.inl rfl)⟩

/-- C5: a turn against a session identifier that is in neither the cache
nor the durable store fails with `NotFoundError`, and the moderator
state is returned unchanged: no session is created as a side effect of
processing a turn. -/
theorem C5_missing_session_not_found (m : Moderator) (db : DbStore) (uid sid : String)
    (hdb : m.db = some db)
    (hc : m.sessions.lookup sid = none)
    (hd : db.lookup sid = none) :
    get_session_state m sid = (none, m) ∧
    process_message_auth m uid sid = .error .NotFoundError := by
  have h1 : get_session_state m sid = (none, m) := by
    simp [get_session_state, hc, hdb, hd]
  refine ⟨h1, ?_⟩
  unfold process_message_auth
  rw [h1]

/-- Closed instance of C5 on an empty store. -/
theorem C5_missing_session_not_found_witness :
    c5moderator.db = some [] ∧
    (get_session_state c5moderator "nope" = (none, c5moderator) ∧
     process_message_auth c5moderator "u1" "nope" = .error .NotFoundError) :=
  ⟨rfl, C5_missing_session_not_found c5moderator [] "u1" "nope" rfl rfl rfl⟩

/-- C6: session lookup checks the cache first (a cache hit is returned
unchanged, whatever the durable store holds); on a cache miss with a
durable-store hit the session is returned and the cache is warmed with
it; when both tiers miss, nothing is returned and nothing is created. -/
theorem C6_two_tier_lookup (m : Moderator) (db : DbStore) (sid : String)
    (s : SessionState) :
    (m.sessions.lookup sid = some s → get_session_state m sid = (some s, m)) ∧
    (m.sessions.lookup sid = none → m.db = some db → db.lookup sid = some s →
        get_session_state m sid =
          (some s, { m with sessions := setAssoc m.sessions sid s }) ∧
        ({ m with sessions := setAssoc m.sessions sid s }).sessions.lookup sid = some s) ∧
    (m.sessions.lookup sid = none → m.db = some db → db.lookup sid = none →
        get_session_state m sid = (none, m)) := by
  refine ⟨?_, ?_, ?_⟩
  · intro h
    simp [get_session_state, h]
  · intro h1 h2 h3
    constructor
    · simp [get_session_state, h1, h2, h3]
    · exact lookup_setAssoc_self m.sessions sid s
  · intro h1 h2 h3
    simp [get_session_state, h1, h2, h3]

/-- Closed instances of C6: cache hit wins over a disagreeing durable
copy, durable hit warms the cache, and a double miss returns nothing. -/
theorem C6_two_tier_lookup_witness :
    get_session_state c6hit "s6" = (some c6cached, c6hit) ∧
    (get_session_state c6miss "s6" =
        (some c6cached, { c6miss with sessions := setAssoc c6miss.sessions "s6" c6cached }) ∧
     ({ c6miss with sessions := setAssoc c6miss.sessions "s6" c6cached }).sessions.lookup "s6"
        = some c6cached) ∧
    get_session_state c5moderator "s6" = (none, c5moderator) :=
  ⟨(C6_two_tier_lookup c6hit [("s6", c6staleCopy)] "s6" c6cached).1 rfl,
   (C6_two_tier_lookup c6miss [("s6", c6cached)] "s6" c6cached).2.1 rfl rfl rfl,
   (C6_two_tier_lookup c5moderator [] "s6" c6cached).2.2 rfl rfl rfl⟩

/-- C2 (counterexample to the claim as stated): when the durable write
of a completed module result fails, the turn is reported as a failure
and neither the history nor the active module changes, but the resulting
in-memory session state is NOT indistinguishable from one in which the
module was never completed: the staged `module_results` entry survives
the failed write. -/
theorem C2_counterexample_failed_persist_changes_state :
    (let out := handle_module_completion [] c2session "mood"
        (GetResultsOutcome.returns [("phq9", "12")]) true DbWriteOutcome.fails
     out.2.2 = some "Error saving module results. Please try again." ∧
       out.2.1 ≠ c2session ∧
       out.2.1.module_results.lookup "mood" = some [("phq9", "12")]) := by
  decide

/-- C2 (amended): with a durable store configured and a truthy module
result, a failed durable write yields a reported error, leaves the
module history, the active module and the durable results table
unchanged (so no transition happens and the module stays active), while
the in-memory `module_results` staging survives; a committed durable
write appends the module to the history with the result row durably
present. -/
theorem C2_persist_before_transition (dbr : ResultsStore) (s : SessionState)
    (curr : String) (r : Payload) (hr : truthy (some r) = true) :
    (let out := handle_module_completion dbr s curr (.returns r) true .fails
     out.2.2 = some "Error saving module results. Please try again." ∧
       out.2.1.module_history = s.module_history ∧
       out.2.1.current_module = s.current_module ∧
       out.1 = dbr) ∧
    (let out := handle_module_completion dbr s curr (.returns r) true .commits
     out.2.1.module_history = s.module_history ++ [curr] ∧
       results_lookup out.1 s.session_id curr = some r) := by
  constructor
  · simp [handle_module_completion, hr]
  · simp [handle_module_completion, hr, mark_module_completed, store_module_results,
      results_lookup]

/-- Closed instance of the amended C2 on concrete data. -/
theorem C2_persist_before_transition_witness :
    truthy (some [("phq9", "12")]) = true ∧
    ((let out := handle_module_completion [] c2session "mood"
        (.returns [("phq9", "12")]) true .fails
      out.2.2 = some "Error saving module results. Please try again." ∧
        out.2.1.module_history = c2session.module_history ∧
        out.2.1.current_module = c2session.current_module ∧
        out.1 = []) ∧
     (let out := handle_module_completion [] c2session "mood"
        (.returns [("phq9", "12")]) true .commits
      out.2.1.module_history = c2session.module_history ++ ["mood"] ∧
        results_lookup out.1 c2session.session_id "mood" = some [("phq9", "12")])) :=
  ⟨rfl, C2_persist_before_transition [] c2session "mood" [("phq9", "12")] rfl⟩

/-- C7 (counterexample to the claim as stated): a module that completes
without exposing `get_results` is appended to the module history with no
error even though `module_results` has no entry for it, in memory or
durably — so the history can contain a module whose result is absent
from `module_results`. -/
theorem C7_counterexample_history_entry_without_result :
    (let s0 : SessionState :=
      { session_id := "s7", patient_id := "u7", current_module := "mood",
        module_history := [], module_results := [], is_complete := false, version := 0 }
     let out := handle_module_completion [] s0 "mood"
        GetResultsOutcome.noAttr true DbWriteOutcome.commits
     out.2.2 = none ∧
       out.2.1.module_history = ["mood"] ∧
       out.2.1.module_results.lookup "mood" = none ∧
       results_lookup out.1 "s7" "mood" = none) := by
  decide

/-- C7 (amended): the module history only ever grows by appending the
module most recently exited — never reordered or truncated — and after
any sequence of completion events it equals the initial history followed
by exactly the modules whose completion succeeded, in completion
order. -/
theorem C7_history_is_ordered_completions (events : List CompletionEvent)
    (dbr : ResultsStore) (s : SessionState) :
    (run_completions (dbr, s) events).2.module_history =
      s.module_history ++ (events.filter event_succeeds).map (fun e => e.module_name) := by
  induction events generalizing dbr s with
  | nil => simp [run_completions]
  | cons e t ih =>
      simp only [run_completions]
      rw [ih, handle_module_completion_history]
      by_cases hs : event_succeeds e = true
      · simp [hs, List.filter_cons, List.append_assoc]
      · simp [hs, List.filter_cons]

/-- C4: the prerequisite gate is a function of the session snapshot that
returns true exactly when every required module appears in the module
history with a truthy `module_results` entry; the TPA check is this gate
applied to the DA module, it is false while DA sits in the history
without a results entry, and true once a non-empty entry exists. -/
theorem C4_prerequisite_gate (required : List String) (s t : SessionState) (r : Payload)
    (hs_none : s.module_results.lookup "da_diagnostic_analysis" = none)
    (ht_hist : "da_diagnostic_analysis" ∈ t.module_history)
    (ht_res : t.module_results.lookup "da_diagnostic_analysis" = some r)
    (hr : r ≠ []) :
    (∀ u : SessionState, can_enter required u = true ↔
        ∀ m ∈ required, m ∈ u.module_history ∧
          truthy (u.module_results.lookup m) = true) ∧
    (∀ u : SessionState, _should_run_tpa u = can_enter ["da_diagnostic_analysis"] u) ∧
    _should_run_tpa s = false ∧
    _should_run_tpa t = true := by
  refine ⟨fun u => can_enter_iff required u, fun u => ?_, ?_, ?_⟩
  · cases hcon : u.module_history.contains "da_diagnostic_analysis" <;>
      cases htr : truthy (u.module_results.lookup "da_diagnostic_analysis") <;>
      simp [_should_run_tpa, can_enter, hcon, htr]
  · simp [_should_run_tpa, hs_none, truthy]
  · have htr : truthy (some r) = true := by
      cases r with
      | nil => exact absurd rfl hr
      | cons a tl => simp [truthy]
    simp [_should_run_tpa, ht_hist, ht_res, htr]

/-- Closed instance of C4: the DA/TPA scenario on concrete sessions. -/
theorem C4_prerequisite_gate_witness :
    c4incomplete.module_results.lookup "da_diagnostic_analysis" = none ∧
    "da_diagnostic_analysis" ∈ c4complete.module_history ∧
    c4complete.module_results.lookup "da_diagnostic_analysis"
        = some [("diagnosis", "gad")] ∧
    ((∀ u : SessionState, can_enter ["intake", "mood"] u = true ↔
        ∀ m ∈ ["intake", "mood"], m ∈ u.module_history ∧
          truthy (u.module_results.lookup m) = true) ∧
     (∀ u : SessionState, _should_run_tpa u = can_enter ["da_diagnostic_analysis"] u) ∧
     _should_run_tpa c4incomplete = false ∧
     _should_run_tpa c4complete = true) :=
  ⟨rfl, by decide, rfl,
    C4_prerequisite_gate ["intake", "mood"] c4incomplete c4complete
      [("diagnosis", "gad")] rfl (by decide) rfl (by decide)⟩

/-- C8: for every input text, every failure mode of the external
text-understanding capability (timeout, error response, malformed
output) resolves to the fallback interpretation, which is total and
structurally valid for the active module — the response processor never
throws on a failed external call. -/
theorem C8_fallback_always_valid (module_name text : String) (outcome : NluOutcome)
    (hf : outcome.is_failure = true) :
    process_response module_name text outcome = fallback_extract module_name text ∧
    structurally_valid module_name (process_response module_name text outcome) = true := by
  cases outcome with
  | success i => simp [NluOutcome.is_failure] at hf
  | timeout => exact ⟨rfl, fallback_extract_valid module_name text⟩
  | httpError status => exact ⟨rfl, fallback_extract_valid module_name text⟩
  | malformed raw => exact ⟨rfl, fallback_extract_valid module_name text⟩

/-- Closed instance of C8: a timeout on a concrete turn still yields a
structurally valid interpretation. -/
theorem C8_fallback_always_valid_witness :
    NluOutcome.timeout.is_failure = true ∧
    (process_response "mood" "yes, most days" NluOutcome.timeout =
        fallback_extract "mood" "yes, most days" ∧
     structurally_valid "mood"
        (process_response "mood" "yes, most days" NluOutcome.timeout) = true) :=
  ⟨rfl, C8_fallback_always_valid "mood" "yes, most days" NluOutcome.timeout rfl⟩

/-- C9: the frontend `deleteSession` converts a 404 from the delete
endpoint into the success-like object carrying the session identifier;
every other HTTP error and every network error is re-thrown unchanged;
a successful response resolves with its data. -/
theorem C9_delete_session_404_success (sessionId detail msg : String)
    (status : Nat) (d : Payload) (hst : status ≠ 404) :
    deleteSession sessionId (.error (.http 404 detail)) =
      .ok (.shim { success := true
                   message := "Session not found (already deleted)"
                   session_id := sessionId }) ∧
    deleteSession sessionId (.error (.http status detail)) = .error (.http status detail) ∧
    deleteSession sessionId (.error (.network msg)) = .error (.network msg) ∧
    deleteSession sessionId (.ok d) = .ok (.data d) := by
  refine ⟨rfl, ?_, rfl, rfl⟩
  simp [deleteSession, hst]

/-- Closed instance of C9 on concrete responses. -/
theorem C9_delete_session_404_success_witness :
    (500 : Nat) ≠ 404 ∧
    (deleteSession "abc" (.error (.http 404 "Not Found")) =
        .ok (.shim { success := true
                     message := "Session not found (already deleted)"
                     session_id := "abc" }) ∧
     deleteSession "abc" (.error (.http 500 "Not Found")) = .error (.http 500 "Not Found") ∧
     deleteSession "abc" (.error (.network "ECONNRESET")) = .error (.network "ECONNRESET") ∧
     deleteSession "abc" (.ok [("status", "ended")]) = .ok (.data [("status", "ended")])) :=
  ⟨by decide, C9_delete_session_404_success "abc" "Not Found" "ECONNRESET" 500
      [("status", "ended")] (by decide)⟩

/-- C10: the questionnaire flag round-trips through local storage —
marking makes the check read true, resetting makes it read false, and
the check reads true exactly when the stored value is the string
true. -/
theorem C10_questionnaire_flag_round_trip (st : Storage) :
    isQuestionnaireCompleted (markQuestionnaireCompleted st) = true ∧
    isQuestionnaireCompleted (resetQuestionnaireStatus st) = false ∧
    (isQuestionnaireCompleted st = true ↔
      getItem st "questionnaire_completed" = some "true") := by
  refine ⟨?_, ?_, ?_⟩
  · simp [isQuestionnaireCompleted, markQuestionnaireCompleted, setItem, getItem,
      lookup_setAssoc_self]
  · simp [isQuestionnaireCompleted, resetQuestionnaireStatus, removeItem, getItem,
      lookup_filter_ne]
  · simp [isQuestionnaireCompleted, getItem]

end MindMate
